import Mathlib

/-!
Shallow embedding of the table-definition builder of `crockerio/cservice`
(`src/database.go`, richest revision: the one with UNSIGNED support).

Go's mutable `*table` is modelled by explicit state passing: every method of
the `TableBuilder` surface becomes a function `table → ... → table × List String`,
the second component being the sequence of `log.Printf` messages the call emits
(only the formatted message text is modelled, not the logger's time prefix).
A configuration callback is modelled as a list of `BuilderOp` invocations:
every run of a Go callback against the capability surface performs some finite
sequence of interface calls, and `toSQL`/`hasColumn` are pure reads, so the
trace of state-mutating calls is exactly such a list.

Go `int` is modelled as `Int`; the `columnModifier` bitmask (`uint8`) as `Nat`
with `&&&` bit tests, matching `flags & M_X != 0`.

`toSQL` in Go slices `colBuilder.String()[:colBuilder.Len()-1]`, which panics
when the accumulated string is empty (index `-1`); the embedding returns
`Option String`, `none` standing for that panic.  The slice drops the final
byte; since every accumulated clause ends in the one-byte character `','`,
dropping the final *character* of the model string coincides with dropping the
final byte whenever the string is non-empty.
-/

namespace cservice

/-- The `column` struct of `database.go`. -/
structure column where
  name : String
  dataType : String
  notNull : Bool
  autoIncrement : Bool
  unique : Bool
  primary : Bool
  unsigned : Bool
deriving DecidableEq

/-- The `table` struct of `database.go`. -/
structure table where
  name : String
  columns : List column
deriving DecidableEq

/-- `M_NOT_NULL columnModifier = 1 << iota` -/
def M_NOT_NULL : Nat := 1
/-- `M_AUTO_INCREMENT` -/
def M_AUTO_INCREMENT : Nat := 2
/-- `M_UNIQUE` -/
def M_UNIQUE : Nat := 4
/-- `M_PRIMARY` -/
def M_PRIMARY : Nat := 8
/-- `M_UNSIGNED` -/
def M_UNSIGNED : Nat := 16
/-- `M_NONE = 0` -/
def M_NONE : Nat := 0

/-- One character inside the character class of the validation regex
`^[0-9,a-z,A-Z$_]+$` of `BuildTable` — note the regex literally contains
commas inside the class, so a comma is accepted. -/
def validTableChar (c : Char) : Bool :=
  (decide ('0' ≤ c) && decide (c ≤ '9')) ||
  (decide ('a' ≤ c) && decide (c ≤ 'z')) ||
  (decide ('A' ≤ c) && decide (c ≤ 'Z')) ||
  c == '$' || c == '_' || c == ','

/-- `regexp.Match("^[0-9,a-z,A-Z$_]+$", []byte(tableName))`: at least one
character, and every character is in the class (every byte of a multi-byte
UTF-8 character is outside the ASCII class, so character-level and byte-level
matching agree). -/
def validTableName (s : String) : Bool :=
  !s.data.isEmpty && s.data.all validTableChar

/-- `func (t *table) hasColumn(name string) bool`: linear scan for the name. -/
def hasColumn (t : table) (name : String) : Bool :=
  t.columns.any (fun col => col.name == name)

/-- The column record appended by `MakeColumn`: the four creation-time flag
bits are read from `flags`; the `unsigned` field is never assigned, so it is
Go's zero value `false`. -/
def newColumn (name dataType : String) (flags : Nat) : column :=
  { name := name
    dataType := dataType
    notNull := flags &&& M_NOT_NULL != 0
    autoIncrement := flags &&& M_AUTO_INCREMENT != 0
    unique := flags &&& M_UNIQUE != 0
    primary := flags &&& M_PRIMARY != 0
    unsigned := false }

/-- `func (t *table) MakeColumn(name string, dataType string, flags columnModifier)`:
skip (with a warning) when the name already exists, otherwise append. -/
def MakeColumn (t : table) (name dataType : String) (flags : Nat) :
    table × List String :=
  if hasColumn t name then
    (t, ["column " ++ name ++ " already defined in table " ++ t.name])
  else
    ({ t with columns := t.columns ++ [newColumn name dataType flags] }, [])

/-- `func (t *table) ID()`. -/
def ID (t : table) : table × List String :=
  MakeColumn t "ID" "CHAR(40)" (M_UNIQUE ||| M_PRIMARY ||| M_NOT_NULL)

/-- `func (t *table) Tinyint(name string)`. -/
def Tinyint (t : table) (name : String) : table × List String :=
  MakeColumn t name "TINYINT" M_NOT_NULL

/-- `func (t *table) Smallint(name string)`. -/
def Smallint (t : table) (name : String) : table × List String :=
  MakeColumn t name "SMALLINT" M_NOT_NULL

/-- `func (t *table) Mediumint(name string)`. -/
def Mediumint (t : table) (name : String) : table × List String :=
  MakeColumn t name "MEDIUMINT" M_NOT_NULL

/-- `func (t *table) Integer(name string)`. -/
def Integer (t : table) (name : String) : table × List String :=
  MakeColumn t name "INTEGER" M_NOT_NULL

/-- `func (t *table) Bigint(name string)`. -/
def Bigint (t : table) (name : String) : table × List String :=
  MakeColumn t name "BIGINT" M_NOT_NULL

/-- `func (t *table) Decimal(name string, precision, scale int)`:
`fmt.Sprintf("DECIMAL(%d, %d)", precision, scale)`. -/
def Decimal (t : table) (name : String) (precision scale : Int) :
    table × List String :=
  MakeColumn t name ("DECIMAL(" ++ toString precision ++ ", " ++ toString scale ++ ")")
    M_NOT_NULL

/-- `func (t *table) Numeric(...)` delegates to `Decimal`. -/
def Numeric (t : table) (name : String) (precision scale : Int) :
    table × List String :=
  Decimal t name precision scale

/-- `func (t *table) Float(name string)`. -/
def Float (t : table) (name : String) : table × List String :=
  MakeColumn t name "FLOAT" M_NOT_NULL

/-- `func (t *table) Double(name string)`. -/
def Double (t : table) (name : String) : table × List String :=
  MakeColumn t name "DOUBLE" M_NOT_NULL

/-- The two clamping warnings of `Bit` (`log.Printf` with `%d`). -/
def bitLowMsg (length : Int) : String :=
  "length (" ++ toString length ++
    ") passed to Bit column is below the minimum value accepted by this field (1)"

/-- See `bitLowMsg`. -/
def bitHighMsg (length : Int) : String :=
  "length (" ++ toString length ++
    ") passed to Bit column is above the maximum value accepted by this field (64)"

/-- `func (t *table) Bit(name string, length int)`: sequentially clamps the
length to at least 1 and at most 64, logging each clamp, then makes a
`BIT(n)` column. -/
def Bit (t : table) (name : String) (length : Int) : table × List String :=
  let clamped1 : Int × List String :=
    if length < 1 then (1, [bitLowMsg length]) else (length, [])
  let clamped2 : Int × List String :=
    if clamped1.fst > 64 then (64, [bitHighMsg clamped1.fst]) else (clamped1.fst, [])
  let made := MakeColumn t name ("BIT(" ++ toString clamped2.fst ++ ")") M_NOT_NULL
  (made.fst, clamped1.snd ++ clamped2.snd ++ made.snd)

/-- `func (t *table) Date(name string)`. -/
def Date (t : table) (name : String) : table × List String :=
  MakeColumn t name "DATE" M_NOT_NULL

/-- `func (t *table) DateTime(name string)`. -/
def DateTime (t : table) (name : String) : table × List String :=
  MakeColumn t name "DATETIME" M_NOT_NULL

/-- `func (t *table) Timestamp(name string)`. -/
def Timestamp (t : table) (name : String) : table × List String :=
  MakeColumn t name "TIMESTAMP" M_NOT_NULL

/-- `func (t *table) Time(name string)`. -/
def Time (t : table) (name : String) : table × List String :=
  MakeColumn t name "TIME" M_NOT_NULL

/-- `func (t *table) Year(name string)`. -/
def Year (t : table) (name : String) : table × List String :=
  MakeColumn t name "YEAR" M_NOT_NULL

/-- `func (t *table) Char(name string, length int)`. -/
def Char (t : table) (name : String) (length : Int) : table × List String :=
  MakeColumn t name ("CHAR(" ++ toString length ++ ")") M_NOT_NULL

/-- `func (t *table) Varchar(name string, length int)`. -/
def Varchar (t : table) (name : String) (length : Int) : table × List String :=
  MakeColumn t name ("VARCHAR(" ++ toString length ++ ")") M_NOT_NULL

/-- `func (t *table) Binary(name string, length int)`. -/
def Binary (t : table) (name : String) (length : Int) : table × List String :=
  MakeColumn t name ("BINARY(" ++ toString length ++ ")") M_NOT_NULL

/-- `func (t *table) Varbinary(name string, length int)`. -/
def Varbinary (t : table) (name : String) (length : Int) : table × List String :=
  MakeColumn t name ("VARBINARY(" ++ toString length ++ ")") M_NOT_NULL

/-- `func (t *table) Tinyblob(name string)`. -/
def Tinyblob (t : table) (name : String) : table × List String :=
  MakeColumn t name "TINYBLOB" M_NOT_NULL

/-- `func (t *table) Blob(name string)`. -/
def Blob (t : table) (name : String) : table × List String :=
  MakeColumn t name "BLOB" M_NOT_NULL

/-- `func (t *table) Mediumblob(name string)`. -/
def Mediumblob (t : table) (name : String) : table × List String :=
  MakeColumn t name "MEDIUMBLOB" M_NOT_NULL

/-- `func (t *table) Longblob(name string)`. -/
def Longblob (t : table) (name : String) : table × List String :=
  MakeColumn t name "LONGBLOB" M_NOT_NULL

/-- `func (t *table) Tinytext(name string)`. -/
def Tinytext (t : table) (name : String) : table × List String :=
  MakeColumn t name "TINYTEXT" M_NOT_NULL

/-- `func (t *table) Text(name string)`. -/
def Text (t : table) (name : String) : table × List String :=
  MakeColumn t name "TEXT" M_NOT_NULL

/-- `func (t *table) Mediumtext(name string)`. -/
def Mediumtext (t : table) (name : String) : table × List String :=
  MakeColumn t name "MEDIUMTEXT" M_NOT_NULL

/-- `func (t *table) Longtext(name string)`. -/
def Longtext (t : table) (name : String) : table × List String :=
  MakeColumn t name "LONGTEXT" M_NOT_NULL

/-- The value list built by the loops of `Enum` and `Set`: each value is
surrounded by single quotes and `", "` is written after every value except
the last.  No escaping of any kind is applied to the values. -/
def quoteJoin : List String → String
  | [] => ""
  | [v] => "'" ++ v ++ "'"
  | v :: rest => "'" ++ v ++ "'" ++ ", " ++ quoteJoin rest

/-- `func (t *table) Enum(name string, values ...string)`. -/
def Enum (t : table) (name : String) (values : List String) : table × List String :=
  MakeColumn t name ("ENUM(" ++ quoteJoin values ++ ")") M_NOT_NULL

/-- `func (t *table) Set(name string, values ...string)`. -/
def Set (t : table) (name : String) (values : List String) : table × List String :=
  MakeColumn t name ("SET(" ++ quoteJoin values ++ ")") M_NOT_NULL

/-- The common loop of the five flag mutators: walk the column list, update
the first column with the given name and stop; `none` when no column
matches. -/
def setFlagFirst (cols : List column) (name : String) (f : column → column) :
    Option (List column) :=
  match cols with
  | [] => none
  | c :: rest =>
    if c.name == name then some (f c :: rest)
    else (setFlagFirst rest name f).map (fun cs => c :: cs)

/-- Shared result shape of the five mutators: update in place when found,
warn otherwise. -/
def mutateFlag (t : table) (name : String) (f : column → column) :
    table × List String :=
  match setFlagFirst t.columns name f with
  | some cols => ({ t with columns := cols }, [])
  | none => (t, ["column " ++ name ++ " not found"])

/-- `func (t *table) NotNull(name string)`. -/
def NotNull (t : table) (name : String) : table × List String :=
  mutateFlag t name (fun c => { c with notNull := true })

/-- `func (t *table) Nullable(name string)`. -/
def Nullable (t : table) (name : String) : table × List String :=
  mutateFlag t name (fun c => { c with notNull := false })

/-- `func (t *table) AutoIncrement(name string)`. -/
def AutoIncrement (t : table) (name : String) : table × List String :=
  mutateFlag t name (fun c => { c with autoIncrement := true })

/-- `func (t *table) Unique(name string)`. -/
def Unique (t : table) (name : String) : table × List String :=
  mutateFlag t name (fun c => { c with unique := true })

/-- `func (t *table) Unsigned(name string)`. -/
def Unsigned (t : table) (name : String) : table × List String :=
  mutateFlag t name (fun c => { c with unsigned := true })

/-- `func (t *table) Timestamps()`: three `MakeColumn` calls. -/
def Timestamps (t : table) : table × List String :=
  let s1 := MakeColumn t "CreatedAt" "DATETIME" M_NOT_NULL
  let s2 := MakeColumn s1.fst "UpdatedAt" "DATETIME" M_NOT_NULL
  let s3 := MakeColumn s2.fst "DeletedAt" "DATETIME" M_NONE
  (s3.fst, s1.snd ++ s2.snd ++ s3.snd)

/-- The `keys` string computed inside the `toSQL` loop. -/
def codeKeys (col : column) : String :=
  if col.primary || col.unique then
    (if col.primary then "PRIMARY " else "") ++
      (if col.unique then "UNIQUE " else "") ++ "KEY"
  else ""

/-- One iteration of the `toSQL` loop:
`fmt.Sprintf("%s %s%s %s%s%s,", name, unsigned, dataType, null, autoIncrement, keys)`. -/
def columnClause (col : column) : String :=
  col.name ++ " " ++ (if col.unsigned then "UNSIGNED " else "") ++
    col.dataType ++ " " ++ (if col.notNull then "NOT NULL " else "") ++
    (if col.autoIncrement then "AUTO_INCREMENT " else "") ++ codeKeys col ++ ","

/-- The accumulation of all loop iterations into `colBuilder`. -/
def joinClauses : List column → String
  | [] => ""
  | col :: rest => columnClause col ++ joinClauses rest

/-- Go's `s[:len(s)-1]` on a non-empty string, at character level (the final
character is always the one-byte `','` here, so bytes and characters agree). -/
def dropLastChar (s : String) : String :=
  String.mk s.data.dropLast

/-- `func (t *table) toSQL() string`: `none` models the Go slice panic on an
empty accumulated string (only possible for a table with no columns). -/
def toSQL (t : table) : Option String :=
  let cols := joinClauses t.columns
  if cols.data.isEmpty then none
  else some ("CREATE TABLE IF NOT EXISTS " ++ t.name ++ "(" ++ dropLastChar cols ++ ")")

/-- One call a configuration callback can make against the `TableBuilder`
capability surface (state-mutating methods only; `toSQL` and `hasColumn` are
pure reads). -/
inductive BuilderOp where
  | id_
  | tinyint (name : String)
  | smallint (name : String)
  | mediumint (name : String)
  | integer (name : String)
  | bigint (name : String)
  | decimal (name : String) (precision scale : Int)
  | numeric (name : String) (precision scale : Int)
  | float_ (name : String)
  | double (name : String)
  | bit (name : String) (length : Int)
  | date (name : String)
  | dateTime (name : String)
  | timestamp (name : String)
  | time (name : String)
  | year (name : String)
  | char_ (name : String) (length : Int)
  | varchar (name : String) (length : Int)
  | binary (name : String) (length : Int)
  | varbinary (name : String) (length : Int)
  | tinyblob (name : String)
  | blob (name : String)
  | mediumblob (name : String)
  | longblob (name : String)
  | tinytext (name : String)
  | text (name : String)
  | mediumtext (name : String)
  | longtext (name : String)
  | enum (name : String) (values : List String)
  | set (name : String) (values : List String)
  | notNull (name : String)
  | nullable (name : String)
  | autoIncrement (name : String)
  | unique (name : String)
  | unsigned (name : String)
  | timestamps
  | makeColumn (name dataType : String) (flags : Nat)
deriving DecidableEq

/-- Dispatch of one capability call to the corresponding method. -/
def applyOp (t : table) : BuilderOp → table × List String
  | .id_ => ID t
  | .tinyint name => Tinyint t name
  | .smallint name => Smallint t name
  | .mediumint name => Mediumint t name
  | .integer name => Integer t name
  | .bigint name => Bigint t name
  | .decimal name p s => Decimal t name p s
  | .numeric name p s => Numeric t name p s
  | .float_ name => Float t name
  | .double name => Double t name
  | .bit name len => Bit t name len
  | .date name => Date t name
  | .dateTime name => DateTime t name
  | .timestamp name => Timestamp t name
  | .time name => Time t name
  | .year name => Year t name
  | .char_ name len => Char t name len
  | .varchar name len => Varchar t name len
  | .binary name len => Binary t name len
  | .varbinary name len => Varbinary t name len
  | .tinyblob name => Tinyblob t name
  | .blob name => Blob t name
  | .mediumblob name => Mediumblob t name
  | .longblob name => Longblob t name
  | .tinytext name => Tinytext t name
  | .text name => Text t name
  | .mediumtext name => Mediumtext t name
  | .longtext name => Longtext t name
  | .enum name values => Enum t name values
  | .set name values => Set t name values
  | .notNull name => NotNull t name
  | .nullable name => Nullable t name
  | .autoIncrement name => AutoIncrement t name
  | .unique name => Unique t name
  | .unsigned name => Unsigned t name
  | .timestamps => Timestamps t
  | .makeColumn name dataType flags => MakeColumn t name dataType flags

/-- Run a callback trace left to right, accumulating log messages. -/
def runOps (t : table) : List BuilderOp → table × List String
  | [] => (t, [])
  | op :: rest =>
    let s1 := applyOp t op
    let s2 := runOps s1.fst rest
    (s2.fst, s1.snd ++ s2.snd)

/-- The table produced by the configuration callback inside `BuildTable`,
starting from `&table{name: tableName}` (empty column list). -/
def builderTable (tableName : String) (ops : List BuilderOp) : table × List String :=
  runOps { name := tableName, columns := [] } ops

/-- The system-column injection performed after the empty check:
`tb.ID()` then `tb.Timestamps()`. -/
def injectSystem (t : table) : table × List String :=
  let s1 := ID t
  let s2 := Timestamps s1.fst
  (s2.fst, s1.snd ++ s2.snd)

/-- `func BuildTable(tableName string, builder func(TableBuilder)) (string, error)`:
the overall result is the returned `(string, error)` pair (as an `Except`)
together with the emitted log messages; the outer `Option` is `none` exactly
when the Go code would panic (never reachable, see the totality theorem). -/
def BuildTable (tableName : String) (ops : List BuilderOp) :
    Option (Except String String × List String) :=
  if !validTableName tableName then
    some (Except.error ("table name " ++ tableName ++ " is invalid"), [])
  else
    let built := builderTable tableName ops
    if built.fst.columns.length = 0 then
      some (Except.error "builder method is empty", built.snd)
    else
      let injected := injectSystem built.fst
      (toSQL injected.fst).map
        (fun sql => (Except.ok sql, built.snd ++ injected.snd))

/-! Spec-side definitions for the refinement claims: these follow the words of
the spec (sections 4.2 and 4.4), to be compared against the definitions above,
which follow the code. -/

/-- Modelled from the spec: `keys` is `PRIMARY KEY`, `UNIQUE KEY`, or
`PRIMARY UNIQUE KEY` (primary before unique) when either flag is set, and
empty otherwise. -/
def specKeys (col : column) : String :=
  if col.primary && col.unique then "PRIMARY UNIQUE KEY"
  else if col.primary then "PRIMARY KEY"
  else if col.unique then "UNIQUE KEY"
  else ""

/-- Modelled from the spec: the column clause
`<name> <UNSIGNED? ><dataType> <NOT NULL? ><AUTO_INCREMENT? ><keys?>`
(no trailing comma; the unsigned fragment sits immediately before the data
type). -/
def specClause (col : column) : String :=
  col.name ++ " " ++ (if col.unsigned then "UNSIGNED " else "") ++
    col.dataType ++ " " ++ (if col.notNull then "NOT NULL " else "") ++
    (if col.autoIncrement then "AUTO_INCREMENT " else "") ++ specKeys col

/-- Modelled from the spec: plain comma-joining of the clauses (no trailing
comma). -/
def commaJoin : List String → String
  | [] => ""
  | [s] => s
  | s :: rest => s ++ "," ++ commaJoin rest

/-- Modelled from the spec: the full statement
`CREATE TABLE IF NOT EXISTS <table>(<columns>)` with the clauses
comma-joined. -/
def specRender (t : table) : String :=
  "CREATE TABLE IF NOT EXISTS " ++ t.name ++ "(" ++
    commaJoin (t.columns.map specClause) ++ ")"

/-- Modelled from the spec: enum/set value lists are each value
single-quoted, separated by comma-space. -/
def commaSpaceJoin : List String → String
  | [] => ""
  | [s] => s
  | s :: rest => s ++ ", " ++ commaSpaceJoin rest

/-- Modelled from the spec: a single-quoted value, quotes applied with no
escaping of the value. -/
def singleQuoted (v : String) : String := "'" ++ v ++ "'"

/-- The five flag-mutator calls of the capability surface, applied to a given
column name. -/
def isFlagMutatorOp (op : BuilderOp) (nm : String) : Prop :=
  op = .notNull nm ∨ op = .nullable nm ∨ op = .autoIncrement nm ∨
    op = .unique nm ∨ op = .unsigned nm

/-! Helper lemmas about the embedding, shared by the claim theorems. -/

/-- The names of a table's columns, in order. -/
def colNames (t : table) : List String := t.columns.map column.name

theorem mk_data (s : String) : String.mk s.data = s := rfl

theorem hasColumn_iff (t : table) (x : String) :
    hasColumn t x = true ↔ ∃ c ∈ t.columns, c.name = x := by
  simp [hasColumn]

theorem hasColumn_false_iff (t : table) (x : String) :
    hasColumn t x = false ↔ ∀ c ∈ t.columns, c.name ≠ x := by
  rw [← Bool.not_eq_true, hasColumn_iff]
  push_neg
  rfl

theorem MakeColumn_found (t : table) (n dt : String) (fl : Nat)
    (h : hasColumn t n = true) :
    MakeColumn t n dt fl =
      (t, ["column " ++ n ++ " already defined in table " ++ t.name]) := by
  simp [MakeColumn, h]

theorem MakeColumn_not_found (t : table) (n dt : String) (fl : Nat)
    (h : hasColumn t n = false) :
    MakeColumn t n dt fl =
      ({ t with columns := t.columns ++ [newColumn n dt fl] }, []) := by
  simp [MakeColumn, h]

theorem filter_eq_nil_of_not_has (t : table) (x : String)
    (h : hasColumn t x = false) :
    t.columns.filter (fun c => c.name == x) = [] := by
  rw [List.filter_eq_nil_iff]
  intro c hc
  have := (hasColumn_false_iff t x).mp h c hc
  simpa using this

theorem hasColumn_MakeColumn_self (t : table) (n dt : String) (fl : Nat) :
    hasColumn (MakeColumn t n dt fl).fst n = true := by
  by_cases h : hasColumn t n
  · simpa [MakeColumn_found t n dt fl h] using h
  · rw [MakeColumn_not_found t n dt fl (by simpa using h)]
    simp [hasColumn, newColumn]

theorem hasColumn_MakeColumn_mono (t : table) (n dt : String) (fl : Nat)
    (x : String) (h : hasColumn t x = true) :
    hasColumn (MakeColumn t n dt fl).fst x = true := by
  by_cases hc : hasColumn t n
  · simpa [MakeColumn_found t n dt fl hc] using h
  · rw [MakeColumn_not_found t n dt fl (by simpa using hc)]
    simp only [hasColumn] at h ⊢
    simp [List.any_append, h]

theorem hasColumn_MakeColumn_ne (t : table) (n dt : String) (fl : Nat)
    (x : String) (hne : n ≠ x) :
    hasColumn (MakeColumn t n dt fl).fst x = hasColumn t x := by
  by_cases hc : hasColumn t n
  · rw [MakeColumn_found t n dt fl hc]
  · rw [MakeColumn_not_found t n dt fl (by simpa using hc)]
    simp [hasColumn, List.any_append, newColumn, hne]

theorem filter_MakeColumn_ne (t : table) (n dt : String) (fl : Nat)
    (x : String) (hne : n ≠ x) :
    (MakeColumn t n dt fl).fst.columns.filter (fun c => c.name == x)
      = t.columns.filter (fun c => c.name == x) := by
  by_cases hc : hasColumn t n
  · rw [MakeColumn_found t n dt fl hc]
  · rw [MakeColumn_not_found t n dt fl (by simpa using hc)]
    simp [List.filter_append, newColumn, hne]

theorem filter_MakeColumn_self (t : table) (n dt : String) (fl : Nat)
    (h : hasColumn t n = false) :
    (MakeColumn t n dt fl).fst.columns.filter (fun c => c.name == n)
      = [newColumn n dt fl] := by
  rw [MakeColumn_not_found t n dt fl h]
  simp [List.filter_append, filter_eq_nil_of_not_has t n h, newColumn]

theorem colNames_nodup_MakeColumn (t : table) (n dt : String) (fl : Nat)
    (h : (colNames t).Nodup) :
    (colNames (MakeColumn t n dt fl).fst).Nodup := by
  by_cases hc : hasColumn t n
  · rw [MakeColumn_found t n dt fl hc]; exact h
  · rw [MakeColumn_not_found t n dt fl (by simpa using hc)]
    have hnot : n ∉ colNames t := by
      intro hmem
      obtain ⟨c, hcmem, hcname⟩ := List.mem_map.mp hmem
      exact (hasColumn_false_iff t n).mp (by simpa using hc) c hcmem hcname
    simp only [colNames, List.map_append, List.map_cons, List.map_nil]
    rw [List.nodup_append]
    exact ⟨h, List.nodup_singleton _, by
      intro a ha hb
      simp only [newColumn, List.mem_singleton] at hb
      exact hnot (hb ▸ ha)⟩

theorem setFlagFirst_none (cols : List column) (x : String) (f : column → column)
    (h : ∀ c ∈ cols, c.name ≠ x) :
    setFlagFirst cols x f = none := by
  induction cols with
  | nil => rfl
  | cons c rest ih =>
    have hc : (c.name == x) = false := by
      simpa using h c (List.mem_cons_self c rest)
    simp [setFlagFirst, hc, ih fun d hd => h d (List.mem_cons_of_mem c hd)]

theorem setFlagFirst_map_name (cols : List column) (x : String)
    (f : column → column) (hf : ∀ c, (f c).name = c.name) :
    ∀ cols', setFlagFirst cols x f = some cols' →
      cols'.map column.name = cols.map column.name := by
  induction cols with
  | nil => intro cols' h; simp [setFlagFirst] at h
  | cons c rest ih =>
    intro cols' h
    by_cases hc : (c.name == x) = true
    · simp only [setFlagFirst, hc, if_true, Option.some.injEq] at h
      subst h
      simp [hf]
    · simp only [setFlagFirst, hc, if_false, Bool.false_eq_true] at h
      cases hrec : setFlagFirst rest x f with
      | none => rw [hrec] at h; simp at h
      | some cs =>
        rw [hrec] at h
        have h' : c :: cs = cols' := by simpa using h
        subst h'
        simp [ih cs hrec]

theorem mutateFlag_not_found (t : table) (x : String) (f : column → column)
    (h : hasColumn t x = false) :
    mutateFlag t x f = (t, ["column " ++ x ++ " not found"]) := by
  rw [mutateFlag, setFlagFirst_none t.columns x f ((hasColumn_false_iff t x).mp h)]

theorem colNames_mutateFlag (t : table) (x : String) (f : column → column)
    (hf : ∀ c, (f c).name = c.name) :
    colNames (mutateFlag t x f).fst = colNames t := by
  cases hrec : setFlagFirst t.columns x f with
  | none => simp [mutateFlag, hrec]
  | some cs => simp [mutateFlag, hrec, colNames, setFlagFirst_map_name t.columns x f hf cs hrec]

theorem setFlagFirst_append_last (cols : List column) (c : column) (x : String)
    (f : column → column) (h : ∀ d ∈ cols, d.name ≠ x) (hc : c.name = x) :
    setFlagFirst (cols ++ [c]) x f = some (cols ++ [f c]) := by
  induction cols with
  | nil => simp [setFlagFirst, hc]
  | cons d rest ih =>
    have hd : (d.name == x) = false := by
      simpa using h d (List.mem_cons_self d rest)
    simp [setFlagFirst, hd, ih fun e he => h e (List.mem_cons_of_mem d he)]

theorem colNames_nodup_mutateFlag (t : table) (x : String) (f : column → column)
    (hf : ∀ c, (f c).name = c.name) (h : (colNames t).Nodup) :
    (colNames (mutateFlag t x f).fst).Nodup := by
  rw [colNames_mutateFlag t x f hf]; exact h

theorem colNames_nodup_applyOp (t : table) (op : BuilderOp)
    (h : (colNames t).Nodup) : (colNames (applyOp t op).fst).Nodup := by
  cases op <;>
    first
      | exact colNames_nodup_MakeColumn _ _ _ _ h
      | exact colNames_nodup_MakeColumn _ _ _ _
          (colNames_nodup_MakeColumn _ _ _ _ (colNames_nodup_MakeColumn _ _ _ _ h))
      | exact colNames_nodup_mutateFlag _ _ _ (fun c => rfl) h

theorem colNames_nodup_runOps (t : table) (ops : List BuilderOp)
    (h : (colNames t).Nodup) : (colNames (runOps t ops).fst).Nodup := by
  induction ops generalizing t with
  | nil => exact h
  | cons op rest ih => exact ih (applyOp t op).fst (colNames_nodup_applyOp t op h)

theorem colNames_nodup_builderTable (n : String) (ops : List BuilderOp) :
    (colNames (builderTable n ops).fst).Nodup :=
  colNames_nodup_runOps { name := n, columns := [] } ops List.nodup_nil

theorem runOps_append (t : table) (l1 l2 : List BuilderOp) :
    runOps t (l1 ++ l2) =
      ((runOps (runOps t l1).fst l2).fst,
        (runOps t l1).snd ++ (runOps (runOps t l1).fst l2).snd) := by
  induction l1 generalizing t with
  | nil => simp [runOps]
  | cons op rest ih =>
    simp only [List.cons_append, runOps, List.append_eq, ih (applyOp t op).fst,
      List.append_assoc]

theorem length_filter_name_eq_one (t : table) (x : String)
    (hn : (colNames t).Nodup) (hx : hasColumn t x = true) :
    (t.columns.filter (fun c => c.name == x)).length = 1 := by
  have h1 : (t.columns.filter (fun c => c.name == x)).length
      = (colNames t).count x := by
    rw [colNames, List.count, List.countP_map, ← List.countP_eq_length_filter]
    rfl
  obtain ⟨c, hc, hcx⟩ := (hasColumn_iff t x).mp hx
  have hmem : x ∈ colNames t := List.mem_map.mpr ⟨c, hc, hcx⟩
  have hle := List.nodup_iff_count_le_one.mp hn x
  have hpos : 0 < (colNames t).count x := List.count_pos_iff.mpr hmem
  omega

/-! Renderer lemmas: relating the `toSQL` loop to the spec-side renderer. -/

theorem codeKeys_eq_specKeys (c : column) : codeKeys c = specKeys c := by
  rcases c with ⟨n, dt, nn, ai, u, p, us⟩
  cases p <;> cases u <;> rfl

theorem columnClause_eq (c : column) : columnClause c = specClause c ++ "," := by
  unfold columnClause specClause
  rw [codeKeys_eq_specKeys]

theorem columnClause_data (c : column) :
    (columnClause c).data = (specClause c).data ++ [','] := by
  rw [columnClause_eq, String.data_append]

theorem joinClauses_ne_nil (cols : List column) (h : cols ≠ []) :
    (joinClauses cols).data ≠ [] := by
  cases cols with
  | nil => exact absurd rfl h
  | cons c rest =>
    simp [joinClauses, String.data_append, columnClause_data]

theorem dropLastChar_data (s : String) :
    (dropLastChar s).data = s.data.dropLast := rfl

theorem dropLastChar_joinClauses (cols : List column) (h : cols ≠ []) :
    dropLastChar (joinClauses cols) = commaJoin (cols.map specClause) := by
  induction cols with
  | nil => exact absurd rfl h
  | cons c rest ih =>
    cases rest with
    | nil =>
      apply String.ext
      show (dropLastChar (columnClause c ++ joinClauses [])).data
        = (commaJoin [specClause c]).data
      simp [dropLastChar_data, joinClauses, String.data_append, columnClause_data,
        commaJoin]
    | cons d rest2 =>
      apply String.ext
      have hne : (joinClauses (d :: rest2)).data ≠ [] :=
        joinClauses_ne_nil (d :: rest2) (by simp)
      have hIH : (commaJoin ((d :: rest2).map specClause)).data
          = (joinClauses (d :: rest2)).data.dropLast := by
        rw [← ih (by simp), dropLastChar_data]
      show ((columnClause c ++ joinClauses (d :: rest2)).data).dropLast
        = (commaJoin (specClause c :: (d :: rest2).map specClause)).data
      rw [String.data_append, columnClause_data,
        List.dropLast_append_of_ne_nil _ hne]
      have hcj : commaJoin (specClause c :: (d :: rest2).map specClause)
          = specClause c ++ "," ++ commaJoin ((d :: rest2).map specClause) := rfl
      rw [hcj, String.data_append, String.data_append, hIH]

theorem toSQL_of_ne_nil (t : table) (h : t.columns ≠ []) :
    toSQL t = some ("CREATE TABLE IF NOT EXISTS " ++ t.name ++ "(" ++
      dropLastChar (joinClauses t.columns) ++ ")") := by
  simp only [toSQL]
  rw [if_neg]
  simp [List.isEmpty_iff, joinClauses_ne_nil t.columns h]

theorem toSQL_eq_specRender (t : table) (h : t.columns ≠ []) :
    toSQL t = some (specRender t) := by
  rw [toSQL_of_ne_nil t h, dropLastChar_joinClauses t.columns h, specRender]

theorem quoteJoin_eq (values : List String) :
    quoteJoin values = commaSpaceJoin (values.map singleQuoted) := by
  induction values with
  | nil => rfl
  | cons v rest ih =>
    cases rest with
    | nil => rfl
    | cons w rest2 =>
      have h1 : quoteJoin (v :: w :: rest2)
          = "'" ++ v ++ "'" ++ ", " ++ quoteJoin (w :: rest2) := rfl
      rw [h1, ih]
      rfl

/-! System-column injection helpers. -/

theorem injectSystem_eq (t : table) :
    (injectSystem t).fst =
      (MakeColumn (MakeColumn (MakeColumn
        (MakeColumn t "ID" "CHAR(40)" (M_UNIQUE ||| M_PRIMARY ||| M_NOT_NULL)).fst
        "CreatedAt" "DATETIME" M_NOT_NULL).fst
        "UpdatedAt" "DATETIME" M_NOT_NULL).fst
        "DeletedAt" "DATETIME" M_NONE).fst := rfl

theorem hasColumn_injectSystem_ID (t : table) :
    hasColumn (injectSystem t).fst "ID" = true := by
  rw [injectSystem_eq]
  exact hasColumn_MakeColumn_mono _ _ _ _ _
    (hasColumn_MakeColumn_mono _ _ _ _ _
      (hasColumn_MakeColumn_mono _ _ _ _ _
        (hasColumn_MakeColumn_self _ _ _ _)))

theorem hasColumn_injectSystem_CreatedAt (t : table) :
    hasColumn (injectSystem t).fst "CreatedAt" = true := by
  rw [injectSystem_eq]
  exact hasColumn_MakeColumn_mono _ _ _ _ _
    (hasColumn_MakeColumn_mono _ _ _ _ _ (hasColumn_MakeColumn_self _ _ _ _))

theorem hasColumn_injectSystem_UpdatedAt (t : table) :
    hasColumn (injectSystem t).fst "UpdatedAt" = true := by
  rw [injectSystem_eq]
  exact hasColumn_MakeColumn_mono _ _ _ _ _ (hasColumn_MakeColumn_self _ _ _ _)

theorem hasColumn_injectSystem_DeletedAt (t : table) :
    hasColumn (injectSystem t).fst "DeletedAt" = true := by
  rw [injectSystem_eq]
  exact hasColumn_MakeColumn_self _ _ _ _

theorem colNames_nodup_injectSystem (t : table) (h : (colNames t).Nodup) :
    (colNames (injectSystem t).fst).Nodup := by
  rw [injectSystem_eq]
  exact colNames_nodup_MakeColumn _ _ _ _
    (colNames_nodup_MakeColumn _ _ _ _
      (colNames_nodup_MakeColumn _ _ _ _ (colNames_nodup_MakeColumn _ _ _ _ h)))

theorem filter_injectSystem_ID (t : table) :
    (hasColumn t "ID" = false →
      (injectSystem t).fst.columns.filter (fun c => c.name == "ID")
        = [newColumn "ID" "CHAR(40)" (M_UNIQUE ||| M_PRIMARY ||| M_NOT_NULL)]) ∧
    (hasColumn t "ID" = true →
      (injectSystem t).fst.columns.filter (fun c => c.name == "ID")
        = t.columns.filter (fun c => c.name == "ID")) := by
  rw [injectSystem_eq]
  rw [filter_MakeColumn_ne _ _ _ _ _ (by decide : "DeletedAt" ≠ "ID"),
    filter_MakeColumn_ne _ _ _ _ _ (by decide : "UpdatedAt" ≠ "ID"),
    filter_MakeColumn_ne _ _ _ _ _ (by decide : "CreatedAt" ≠ "ID")]
  constructor
  · intro h
    exact filter_MakeColumn_self t "ID" _ _ h
  · intro h
    rw [MakeColumn_found t "ID" _ _ h]

theorem filter_injectSystem_CreatedAt (t : table) :
    (hasColumn t "CreatedAt" = false →
      (injectSystem t).fst.columns.filter (fun c => c.name == "CreatedAt")
        = [newColumn "CreatedAt" "DATETIME" M_NOT_NULL]) ∧
    (hasColumn t "CreatedAt" = true →
      (injectSystem t).fst.columns.filter (fun c => c.name == "CreatedAt")
        = t.columns.filter (fun c => c.name == "CreatedAt")) := by
  rw [injectSystem_eq]
  rw [filter_MakeColumn_ne _ _ _ _ _ (by decide : "DeletedAt" ≠ "CreatedAt"),
    filter_MakeColumn_ne _ _ _ _ _ (by decide : "UpdatedAt" ≠ "CreatedAt")]
  have htrans : hasColumn
      (MakeColumn t "ID" "CHAR(40)" (M_UNIQUE ||| M_PRIMARY ||| M_NOT_NULL)).fst
      "CreatedAt" = hasColumn t "CreatedAt" :=
    hasColumn_MakeColumn_ne _ _ _ _ _ (by decide : "ID" ≠ "CreatedAt")
  constructor
  · intro h
    rw [filter_MakeColumn_self _ "CreatedAt" _ _ (htrans.trans h),
      ]
  · intro h
    rw [MakeColumn_found _ "CreatedAt" _ _ (htrans.trans h),
      filter_MakeColumn_ne _ _ _ _ _ (by decide : "ID" ≠ "CreatedAt")]

theorem filter_injectSystem_UpdatedAt (t : table) :
    (hasColumn t "UpdatedAt" = false →
      (injectSystem t).fst.columns.filter (fun c => c.name == "UpdatedAt")
        = [newColumn "UpdatedAt" "DATETIME" M_NOT_NULL]) ∧
    (hasColumn t "UpdatedAt" = true →
      (injectSystem t).fst.columns.filter (fun c => c.name == "UpdatedAt")
        = t.columns.filter (fun c => c.name == "UpdatedAt")) := by
  rw [injectSystem_eq]
  rw [filter_MakeColumn_ne _ _ _ _ _ (by decide : "DeletedAt" ≠ "UpdatedAt")]
  have htrans : hasColumn
      (MakeColumn (MakeColumn t "ID" "CHAR(40)"
        (M_UNIQUE ||| M_PRIMARY ||| M_NOT_NULL)).fst
        "CreatedAt" "DATETIME" M_NOT_NULL).fst "UpdatedAt"
      = hasColumn t "UpdatedAt" := by
    rw [hasColumn_MakeColumn_ne _ _ _ _ _ (by decide : "CreatedAt" ≠ "UpdatedAt"),
      hasColumn_MakeColumn_ne _ _ _ _ _ (by decide : "ID" ≠ "UpdatedAt")]
  constructor
  · intro h
    rw [filter_MakeColumn_self _ "UpdatedAt" _ _ (htrans.trans h)]
  · intro h
    rw [MakeColumn_found _ "UpdatedAt" _ _ (htrans.trans h),
      filter_MakeColumn_ne _ _ _ _ _ (by decide : "CreatedAt" ≠ "UpdatedAt"),
      filter_MakeColumn_ne _ _ _ _ _ (by decide : "ID" ≠ "UpdatedAt")]

theorem filter_injectSystem_DeletedAt (t : table) :
    (hasColumn t "DeletedAt" = false →
      (injectSystem t).fst.columns.filter (fun c => c.name == "DeletedAt")
        = [newColumn "DeletedAt" "DATETIME" M_NONE]) ∧
    (hasColumn t "DeletedAt" = true →
      (injectSystem t).fst.columns.filter (fun c => c.name == "DeletedAt")
        = t.columns.filter (fun c => c.name == "DeletedAt")) := by
  rw [injectSystem_eq]
  have htrans : hasColumn
      (MakeColumn (MakeColumn (MakeColumn t "ID" "CHAR(40)"
        (M_UNIQUE ||| M_PRIMARY ||| M_NOT_NULL)).fst
        "CreatedAt" "DATETIME" M_NOT_NULL).fst
        "UpdatedAt" "DATETIME" M_NOT_NULL).fst "DeletedAt"
      = hasColumn t "DeletedAt" := by
    rw [hasColumn_MakeColumn_ne _ _ _ _ _ (by decide : "UpdatedAt" ≠ "DeletedAt"),
      hasColumn_MakeColumn_ne _ _ _ _ _ (by decide : "CreatedAt" ≠ "DeletedAt"),
      hasColumn_MakeColumn_ne _ _ _ _ _ (by decide : "ID" ≠ "DeletedAt")]
  constructor
  · intro h
    rw [filter_MakeColumn_self _ "DeletedAt" _ _ (htrans.trans h)]
  · intro h
    rw [MakeColumn_found _ "DeletedAt" _ _ (htrans.trans h),
      filter_MakeColumn_ne _ _ _ _ _ (by decide : "UpdatedAt" ≠ "DeletedAt"),
      filter_MakeColumn_ne _ _ _ _ _ (by decide : "CreatedAt" ≠ "DeletedAt"),
      filter_MakeColumn_ne _ _ _ _ _ (by decide : "ID" ≠ "DeletedAt")]

theorem columns_ne_nil_of_hasColumn (t : table) (x : String)
    (h : hasColumn t x = true) : t.columns ≠ [] := by
  intro hcols
  rw [hasColumn, hcols] at h
  simp at h

/-- C2: for every valid table name and every configuration callback that adds
at least one column, the SQL returned by `BuildTable` is the rendering of the
injected table, in which exactly one column (hence exactly one clause) is
named `ID` and exactly one each is named `CreatedAt`, `UpdatedAt` and
`DeletedAt`; when the callback did not define `ID` the single `ID` column is
the default one, whose clause is `ID CHAR(40) NOT NULL PRIMARY UNIQUE KEY`,
and when it did, the callback's definition is kept unchanged; the same dedup
rule holds for each of the three audit columns. -/
theorem C2_system_column_dedup (n : String) (ops : List BuilderOp)
    (hn : validTableName n = true)
    (hne : (builderTable n ops).fst.columns ≠ []) :
    (∃ sql,
      toSQL (injectSystem (builderTable n ops).fst).fst = some sql ∧
      BuildTable n ops = some (Except.ok sql,
        (builderTable n ops).snd ++ (injectSystem (builderTable n ops).fst).snd)) ∧
    ((injectSystem (builderTable n ops).fst).fst.columns.filter
        (fun c => c.name == "ID")).length = 1 ∧
    ((injectSystem (builderTable n ops).fst).fst.columns.filter
        (fun c => c.name == "CreatedAt")).length = 1 ∧
    ((injectSystem (builderTable n ops).fst).fst.columns.filter
        (fun c => c.name == "UpdatedAt")).length = 1 ∧
    ((injectSystem (builderTable n ops).fst).fst.columns.filter
        (fun c => c.name == "DeletedAt")).length = 1 ∧
    (hasColumn (builderTable n ops).fst "ID" = false →
      (injectSystem (builderTable n ops).fst).fst.columns.filter
          (fun c => c.name == "ID")
        = [⟨"ID", "CHAR(40)", true, false, true, true, false⟩]) ∧
    (hasColumn (builderTable n ops).fst "ID" = true →
      (injectSystem (builderTable n ops).fst).fst.columns.filter
          (fun c => c.name == "ID")
        = (builderTable n ops).fst.columns.filter (fun c => c.name == "ID")) ∧
    (hasColumn (builderTable n ops).fst "CreatedAt" = false →
      (injectSystem (builderTable n ops).fst).fst.columns.filter
          (fun c => c.name == "CreatedAt")
        = [⟨"CreatedAt", "DATETIME", true, false, false, false, false⟩]) ∧
    (hasColumn (builderTable n ops).fst "CreatedAt" = true →
      (injectSystem (builderTable n ops).fst).fst.columns.filter
          (fun c => c.name == "CreatedAt")
        = (builderTable n ops).fst.columns.filter (fun c => c.name == "CreatedAt")) ∧
    (hasColumn (builderTable n ops).fst "UpdatedAt" = false →
      (injectSystem (builderTable n ops).fst).fst.columns.filter
          (fun c => c.name == "UpdatedAt")
        = [⟨"UpdatedAt", "DATETIME", true, false, false, false, false⟩]) ∧
    (hasColumn (builderTable n ops).fst "UpdatedAt" = true →
      (injectSystem (builderTable n ops).fst).fst.columns.filter
          (fun c => c.name == "UpdatedAt")
        = (builderTable n ops).fst.columns.filter (fun c => c.name == "UpdatedAt")) ∧
    (hasColumn (builderTable n ops).fst "DeletedAt" = false →
      (injectSystem (builderTable n ops).fst).fst.columns.filter
          (fun c => c.name == "DeletedAt")
        = [⟨"DeletedAt", "DATETIME", false, false, false, false, false⟩]) ∧
    (hasColumn (builderTable n ops).fst "DeletedAt" = true →
      (injectSystem (builderTable n ops).fst).fst.columns.filter
          (fun c => c.name == "DeletedAt")
        = (builderTable n ops).fst.columns.filter (fun c => c.name == "DeletedAt")) ∧
    columnClause ⟨"ID", "CHAR(40)", true, false, true, true, false⟩
      = "ID CHAR(40) NOT NULL PRIMARY UNIQUE KEY," := by
  have hnodup := colNames_nodup_builderTable n ops
  have hFnodup := colNames_nodup_injectSystem (builderTable n ops).fst hnodup
  have hFne : (injectSystem (builderTable n ops).fst).fst.columns ≠ [] :=
    columns_ne_nil_of_hasColumn _ "ID"
      (hasColumn_injectSystem_ID (builderTable n ops).fst)
  have hid : newColumn "ID" "CHAR(40)" (M_UNIQUE ||| M_PRIMARY ||| M_NOT_NULL)
      = (⟨"ID", "CHAR(40)", true, false, true, true, false⟩ : column) := by decide
  have hca : newColumn "CreatedAt" "DATETIME" M_NOT_NULL
      = (⟨"CreatedAt", "DATETIME", true, false, false, false, false⟩ : column) := by
    decide
  have hua : newColumn "UpdatedAt" "DATETIME" M_NOT_NULL
      = (⟨"UpdatedAt", "DATETIME", true, false, false, false, false⟩ : column) := by
    decide
  have hda : newColumn "DeletedAt" "DATETIME" M_NONE
      = (⟨"DeletedAt", "DATETIME", false, false, false, false, false⟩ : column) := by
    decide
  refine ⟨?_, ?_, ?_, ?_, ?_, ?_, ?_, ?_, ?_, ?_, ?_, ?_, ?_, ?_⟩
  · obtain ⟨s, hs⟩ : ∃ s, toSQL (injectSystem (builderTable n ops).fst).fst = some s :=
      ⟨_, toSQL_of_ne_nil _ hFne⟩
    refine ⟨s, hs, ?_⟩
    have hBT : BuildTable n ops
        = (toSQL (injectSystem (builderTable n ops).fst).fst).map
            (fun sql => (Except.ok sql,
              (builderTable n ops).snd ++ (injectSystem (builderTable n ops).fst).snd)) := by
      simp [BuildTable, hn, List.length_eq_zero, hne]
    rw [hBT, hs, Option.map_some']
  · exact length_filter_name_eq_one _ "ID" hFnodup
      (hasColumn_injectSystem_ID (builderTable n ops).fst)
  · exact length_filter_name_eq_one _ "CreatedAt" hFnodup
      (hasColumn_injectSystem_CreatedAt (builderTable n ops).fst)
  · exact length_filter_name_eq_one _ "UpdatedAt" hFnodup
      (hasColumn_injectSystem_UpdatedAt (builderTable n ops).fst)
  · exact length_filter_name_eq_one _ "DeletedAt" hFnodup
      (hasColumn_injectSystem_DeletedAt (builderTable n ops).fst)
  · intro h
    rw [(filter_injectSystem_ID (builderTable n ops).fst).1 h, hid]
  · exact (filter_injectSystem_ID (builderTable n ops).fst).2
  · intro h
    rw [(filter_injectSystem_CreatedAt (builderTable n ops).fst).1 h, hca]
  · exact (filter_injectSystem_CreatedAt (builderTable n ops).fst).2
  · intro h
    rw [(filter_injectSystem_UpdatedAt (builderTable n ops).fst).1 h, hua]
  · exact (filter_injectSystem_UpdatedAt (builderTable n ops).fst).2
  · intro h
    rw [(filter_injectSystem_DeletedAt (builderTable n ops).fst).1 h, hda]
  · exact (filter_injectSystem_DeletedAt (builderTable n ops).fst).2
  · decide

/-- Witness for C2 at the spec's own scenario (`users` with `name`, `age`):
the hypotheses hold and the injected table has exactly one `ID` column. -/
theorem C2_system_column_dedup_witness :
    ((injectSystem (builderTable "users"
        [BuilderOp.varchar "name" 40, BuilderOp.unique "name",
          BuilderOp.integer "age"]).fst).fst.columns.filter
      (fun c => c.name == "ID")).length = 1 :=
  (C2_system_column_dedup "users"
    [BuilderOp.varchar "name" 40, BuilderOp.unique "name",
      BuilderOp.integer "age"] (by decide) (by decide)).2.1

/-- C3: for every final table model with at least one column, `toSQL` returns
exactly the spec-described statement: per column, in insertion order, the
clause `<name> <UNSIGNED? ><dataType> <NOT NULL? ><AUTO_INCREMENT? ><keys?>`
(keys being `PRIMARY KEY` / `UNIQUE KEY` / `PRIMARY UNIQUE KEY`, primary
before unique, empty when neither flag is set; the unsigned fragment
immediately before the data type), the clauses comma-joined (equivalently:
each clause written with a trailing comma and the final comma stripped),
wrapped as `CREATE TABLE IF NOT EXISTS <table>(<columns>)`. -/
theorem C3_renderer_format (t : table) (h : t.columns ≠ []) :
    toSQL t = some (specRender t) ∧
    specRender t = "CREATE TABLE IF NOT EXISTS " ++ t.name ++ "(" ++
      commaJoin (t.columns.map specClause) ++ ")" ∧
    ∀ c ∈ t.columns, columnClause c = specClause c ++ "," :=
  ⟨toSQL_eq_specRender t h, rfl, fun c _ => columnClause_eq c⟩

/-- Witness for C3 at a one-column table. -/
theorem C3_renderer_format_witness :
    toSQL ⟨"t", [⟨"a", "INTEGER", true, false, false, false, false⟩]⟩
      = some (specRender ⟨"t", [⟨"a", "INTEGER", true, false, false, false, false⟩]⟩) :=
  (C3_renderer_format ⟨"t", [⟨"a", "INTEGER", true, false, false, false, false⟩]⟩
    (by decide)).1

/-- C5: column names are unique within a table and every operation preserves
this: `MakeColumn` on an existing name returns the table unchanged (only a
warning is logged), no flag mutator changes the list of column names (in
particular none appends a column), and the final table rendered by the
builder — the callback's table after system-column injection — has pairwise
distinct column names. -/
theorem C5_unique_names (t : table) (n dt : String) (fl : Nat) (x : String)
    (tn : String) (ops : List BuilderOp) :
    (hasColumn t n = true →
      MakeColumn t n dt fl
        = (t, ["column " ++ n ++ " already defined in table " ++ t.name])) ∧
    colNames (NotNull t x).fst = colNames t ∧
    colNames (Nullable t x).fst = colNames t ∧
    colNames (AutoIncrement t x).fst = colNames t ∧
    colNames (Unique t x).fst = colNames t ∧
    colNames (Unsigned t x).fst = colNames t ∧
    (colNames (injectSystem (builderTable tn ops).fst).fst).Nodup := by
  refine ⟨fun h => MakeColumn_found t n dt fl h, ?_, ?_, ?_, ?_, ?_, ?_⟩
  · exact colNames_mutateFlag t x _ (fun c => rfl)
  · exact colNames_mutateFlag t x _ (fun c => rfl)
  · exact colNames_mutateFlag t x _ (fun c => rfl)
  · exact colNames_mutateFlag t x _ (fun c => rfl)
  · exact colNames_mutateFlag t x _ (fun c => rfl)
  · exact colNames_nodup_injectSystem _ (colNames_nodup_builderTable tn ops)

/-- Witness for C5: a duplicate `MakeColumn` call is a no-op with a warning. -/
theorem C5_unique_names_witness :
    MakeColumn ⟨"t", [⟨"a", "TEXT", true, false, false, false, false⟩]⟩
        "a" "INTEGER" 1
      = (⟨"t", [⟨"a", "TEXT", true, false, false, false, false⟩]⟩,
          ["column a already defined in table t"]) :=
  (C5_unique_names ⟨"t", [⟨"a", "TEXT", true, false, false, false, false⟩]⟩
    "a" "INTEGER" 1 "x" "tn" []).1 (by decide)

/-- C10: the renderer's trailing-comma strip is in bounds for every table with
at least one column; on an empty column list `toSQL` would index out of range
(modelled as `none`); and since `BuildTable`'s zero-column check runs before
rendering, `BuildTable` as a whole never reaches the out-of-range slice. -/
theorem C10_slice_safety :
    (∀ t : table, t.columns ≠ [] → (toSQL t).isSome = true) ∧
    (∀ nm : String, toSQL { name := nm, columns := [] } = none) ∧
    (∀ (n : String) (ops : List BuilderOp), BuildTable n ops ≠ none) := by
  refine ⟨?_, ?_, ?_⟩
  · intro t h
    rw [toSQL_of_ne_nil t h]
    rfl
  · intro nm
    rfl
  · intro n ops
    by_cases hv : validTableName n
    · by_cases hlen : (builderTable n ops).fst.columns = []
      · simp [BuildTable, hv, hlen]
      · have hFne : (injectSystem (builderTable n ops).fst).fst.columns ≠ [] :=
          columns_ne_nil_of_hasColumn _ "ID" (hasColumn_injectSystem_ID _)
        have hsql := toSQL_of_ne_nil _ hFne
        simp [BuildTable, hv, List.length_eq_zero, hlen, hsql]
    · have hv' : validTableName n = false := by simpa using hv
      simp [BuildTable, hv']

/-- Witness for C10: the renderer is defined at a one-column table, undefined
at a zero-column table, and `BuildTable` is total on a concrete input. -/
theorem C10_slice_safety_witness :
    (toSQL ⟨"t", [⟨"a", "TEXT", true, false, false, false, false⟩]⟩).isSome = true ∧
    toSQL { name := "t", columns := [] } = none ∧
    BuildTable "test" [] ≠ none :=
  ⟨C10_slice_safety.1 ⟨"t", [⟨"a", "TEXT", true, false, false, false, false⟩]⟩
      (by decide),
    C10_slice_safety.2.1 "t", C10_slice_safety.2.2 "test" []⟩

/-- C1 counterexample: the claim, as stated, fails on the comma.  The name
`a,b` contains a comma — a character outside `[0-9a-zA-Z$_]` — yet
`BuildTable` succeeds (the code's regex `^[0-9,a-z,A-Z$_]+$` has literal
commas inside its character class, so `validTableChar` accepts a comma). -/
theorem C1_counterexample :
    BuildTable "a,b" [BuilderOp.integer "x"]
      = some (Except.ok ("CREATE TABLE IF NOT EXISTS a,b(x INTEGER NOT NULL ,ID CHAR(40) NOT NULL PRIMARY UNIQUE KEY,CreatedAt DATETIME NOT NULL ,UpdatedAt DATETIME NOT NULL ,DeletedAt DATETIME )"), [])
    ∧ ',' ∈ ("a,b").data ∧ validTableChar ',' = true := by
  refine ⟨rfl, by decide, by decide⟩

/-- C1 (amended): the code's character class is the comma-extended
`[0-9a-zA-Z$_,]` — the regex `^[0-9,a-z,A-Z$_]+$` contains literal commas
inside the class.  For every name containing a character outside that class,
`BuildTable` returns an error whose message contains the literal name and
`is invalid`, and the result does not depend on the callback (it is never
invoked); every non-empty name whose characters all lie in the class passes
name validation. -/
theorem C1_name_validation (s : String) (ops ops2 : List BuilderOp) :
    ((∃ c ∈ s.data, validTableChar c = false) →
      BuildTable s ops
        = some (Except.error ("table name " ++ s ++ " is invalid"), []) ∧
      BuildTable s ops = BuildTable s ops2 ∧
      s.data <:+: ("table name " ++ s ++ " is invalid").data ∧
      ("is invalid").data <:+: ("table name " ++ s ++ " is invalid").data) ∧
    ((s.data ≠ [] ∧ ∀ c ∈ s.data, validTableChar c = true) →
      validTableName s = true) := by
  constructor
  · rintro ⟨c, hc, hbad⟩
    have hall : s.data.all validTableChar = false := by
      rw [List.all_eq_false]
      exact ⟨c, hc, by simp [hbad]⟩
    have hval : validTableName s = false := by
      rw [validTableName, hall, Bool.and_false]
    refine ⟨by simp [BuildTable, hval], by simp [BuildTable, hval], ?_, ?_⟩
    · exact ⟨("table name ").data, (" is invalid").data,
        by simp [String.data_append]⟩
    · refine ⟨("table name ").data ++ s.data ++ [' '], [], ?_⟩
      have hsp : (" is invalid").data = [' '] ++ ("is invalid").data := rfl
      simp [String.data_append, hsp]
  · rintro ⟨hne, hall⟩
    rw [validTableName]
    simp [List.isEmpty_iff, hne, List.all_eq_true.mpr hall]

/-- Witness for C1: a space fails validation with the full error message, and
a name made only of class characters (comma included) passes validation. -/
theorem C1_name_validation_witness :
    BuildTable "a b" [] = some (Except.error "table name a b is invalid", []) ∧
    validTableName "user$_,2" = true :=
  ⟨((C1_name_validation "a b" [] []).1 ⟨' ', by decide, by decide⟩).1,
    (C1_name_validation "user$_,2" [] []).2 ⟨by decide, by decide⟩⟩

/-- C4: for every valid table name whose callback adds zero columns,
`BuildTable` returns the error `builder method is empty`, carrying the
callback's log output (the callback did run), and the check precedes
system-column injection: injecting into the callback's empty table would have
produced a non-empty table, yet the error is returned instead. -/
theorem C4_empty_builder (n : String) (ops : List BuilderOp)
    (hn : validTableName n = true)
    (hempty : (builderTable n ops).fst.columns = []) :
    BuildTable n ops
      = some (Except.error "builder method is empty", (builderTable n ops).snd) ∧
    (injectSystem (builderTable n ops).fst).fst.columns ≠ [] := by
  constructor
  · simp [BuildTable, hn, hempty]
  · exact columns_ne_nil_of_hasColumn _ "ID" (hasColumn_injectSystem_ID _)

/-- Witness for C4: a callback that only calls a mutator on a missing column
adds nothing, so the build fails with the empty-builder error while the
mutator's warning shows the callback did run. -/
theorem C4_empty_builder_witness :
    BuildTable "test" [BuilderOp.notNull "x"]
      = some (Except.error "builder method is empty", ["column x not found"]) :=
  (C4_empty_builder "test" [BuilderOp.notNull "x"] (by decide) (by decide)).1

/-- C6: `Bit` clamps the length into `[1, 64]` — below 1 it becomes 1, above
64 it becomes 64, otherwise it is kept — and always adds a `BIT(m)` column
with the clamped value (shown here for a fresh name); out-of-range lengths
only log a warning (whose text carries the offending length), in-range
lengths log nothing, and no error path exists. -/
theorem C6_bit_clamping (t : table) (nm : String) (len : Int)
    (h : hasColumn t nm = false) :
    (Bit t nm len).fst.columns = t.columns ++
      [⟨nm, "BIT(" ++ toString (if len < 1 then 1 else if len > 64 then 64 else len)
          ++ ")", true, false, false, false, false⟩] ∧
    (1 ≤ (if len < 1 then (1 : Int) else if len > 64 then 64 else len) ∧
      (if len < 1 then (1 : Int) else if len > 64 then 64 else len) ≤ 64) ∧
    (len < 1 → (Bit t nm len).snd = [bitLowMsg len]) ∧
    (len > 64 → (Bit t nm len).snd = [bitHighMsg len]) ∧
    (1 ≤ len → len ≤ 64 → (Bit t nm len).snd = []) ∧
    (toString len).data <:+: (bitLowMsg len).data ∧
    (toString len).data <:+: (bitHighMsg len).data := by
  have hlow : (toString len).data <:+: (bitLowMsg len).data :=
    ⟨("length (").data,
      (") passed to Bit column is below the minimum value accepted by this field (1)").data,
      by simp [bitLowMsg, String.data_append]⟩
  have hhigh : (toString len).data <:+: (bitHighMsg len).data :=
    ⟨("length (").data,
      (") passed to Bit column is above the maximum value accepted by this field (64)").data,
      by simp [bitHighMsg, String.data_append]⟩
  by_cases h1 : len < 1
  · have h2 : ¬(1 : Int) > 64 := by norm_num
    refine ⟨?_, ?_, ?_, ?_, ?_, hlow, hhigh⟩
    · rw [if_pos h1]
      simp only [Bit, if_pos h1, if_neg h2]
      rw [MakeColumn_not_found t nm _ _ h]
      rfl
    · rw [if_pos h1]; norm_num
    · intro _
      simp only [Bit, if_pos h1, if_neg h2]
      rw [MakeColumn_not_found t nm _ _ h]
      rfl
    · intro hgt; omega
    · intro hge; omega
  · by_cases h2 : len > 64
    · refine ⟨?_, ?_, ?_, ?_, ?_, hlow, hhigh⟩
      · rw [if_neg h1, if_pos h2]
        simp only [Bit, if_neg h1, if_pos h2]
        rw [MakeColumn_not_found t nm _ _ h]
        rfl
      · rw [if_neg h1, if_pos h2]; norm_num
      · intro hlt; omega
      · intro _
        simp only [Bit, if_neg h1, if_pos h2]
        rw [MakeColumn_not_found t nm _ _ h]
        rfl
      · intro _ hle; omega
    · refine ⟨?_, ?_, ?_, ?_, ?_, hlow, hhigh⟩
      · rw [if_neg h1, if_neg h2]
        simp only [Bit, if_neg h1, if_neg h2]
        rw [MakeColumn_not_found t nm _ _ h]
        rfl
      · rw [if_neg h1, if_neg h2]; omega
      · intro hlt; omega
      · intro hgt; omega
      · intro _ _
        simp only [Bit, if_neg h1, if_neg h2]
        rw [MakeColumn_not_found t nm _ _ h]
        rfl

/-- Witness for C6: `Bit` at length −1 clamps to `BIT(1)` with the
below-minimum warning. -/
theorem C6_bit_clamping_witness :
    (Bit ⟨"t", []⟩ "b" (-1)).fst.columns
      = [⟨"b", "BIT(1)", true, false, false, false, false⟩] ∧
    (Bit ⟨"t", []⟩ "b" (-1)).snd = [bitLowMsg (-1)] := by
  have h := C6_bit_clamping ⟨"t", []⟩ "b" (-1) (by decide)
  exact ⟨h.1, h.2.2.1 (by norm_num)⟩

/-- C7: `Enum` renders its data type as `ENUM(` + the values each
single-quoted and separated by comma-space (no escaping of any value) + `)`,
with the NOT_NULL flag set; `Set` is identical with `SET`; concretely
`Enum("col", "a", "b")` yields a clause carrying
`col ENUM('a', 'b') NOT NULL`. -/
theorem C7_enum_set (t : table) (nm : String) (values : List String)
    (h : hasColumn t nm = false) :
    quoteJoin values = commaSpaceJoin (values.map singleQuoted) ∧
    (Enum t nm values).fst.columns = t.columns ++
      [⟨nm, "ENUM(" ++ quoteJoin values ++ ")", true, false, false, false, false⟩] ∧
    (Set t nm values).fst.columns = t.columns ++
      [⟨nm, "SET(" ++ quoteJoin values ++ ")", true, false, false, false, false⟩] ∧
    "ENUM(" ++ quoteJoin ["a", "b"] ++ ")" = "ENUM('a', 'b')" ∧
    columnClause ⟨"col", "ENUM('a', 'b')", true, false, false, false, false⟩
      = "col ENUM('a', 'b') NOT NULL ," ∧
    ("col ENUM('a', 'b') NOT NULL").data <:+:
      (columnClause ⟨"col", "ENUM('a', 'b')", true, false, false, false, false⟩).data := by
  refine ⟨quoteJoin_eq values, ?_, ?_, rfl, rfl, ⟨[], [' ', ','], rfl⟩⟩
  · simp only [Enum]
    rw [MakeColumn_not_found t nm _ _ h]
    rfl
  · simp only [Set]
    rw [MakeColumn_not_found t nm _ _ h]
    rfl

/-- Witness for C7 at the spec's example values. -/
theorem C7_enum_set_witness :
    (Enum ⟨"t", []⟩ "col" ["a", "b"]).fst.columns
      = [⟨"col", "ENUM('a', 'b')", true, false, false, false, false⟩] :=
  (C7_enum_set ⟨"t", []⟩ "col" ["a", "b"] (by decide)).2.1

/-- C9: the UNSIGNED attribute cannot be set at creation time: whatever the
flag set — the `M_UNSIGNED` bit included — the column appended by
`MakeColumn` reads only the NOT_NULL, AUTO_INCREMENT, UNIQUE and PRIMARY
bits and its `unsigned` field is `false`; only a later `Unsigned` call on the
existing column turns it `true`. -/
theorem C9_unsigned_not_creation (t : table) (nm dt : String) (fl : Nat)
    (h : hasColumn t nm = false) :
    (MakeColumn t nm dt fl).fst.columns = t.columns ++
      [⟨nm, dt, fl &&& M_NOT_NULL != 0, fl &&& M_AUTO_INCREMENT != 0,
        fl &&& M_UNIQUE != 0, fl &&& M_PRIMARY != 0, false⟩] ∧
    (Unsigned (MakeColumn t nm dt fl).fst nm).fst.columns = t.columns ++
      [⟨nm, dt, fl &&& M_NOT_NULL != 0, fl &&& M_AUTO_INCREMENT != 0,
        fl &&& M_UNIQUE != 0, fl &&& M_PRIMARY != 0, true⟩] := by
  have hcols := MakeColumn_not_found t nm dt fl h
  constructor
  · rw [hcols]
    rfl
  · have hset := setFlagFirst_append_last t.columns (newColumn nm dt fl) nm
      (fun c => { c with unsigned := true })
      ((hasColumn_false_iff t nm).mp h) rfl
    simp only [Unsigned]
    rw [hcols]
    simp only [mutateFlag, hset]
    rfl

/-- Witness for C9: flags 17 = M_NOT_NULL + M_UNSIGNED; the created column is
not unsigned, and becomes unsigned only after the `Unsigned` call. -/
theorem C9_unsigned_not_creation_witness :
    (MakeColumn ⟨"t", []⟩ "a" "BIGINT" 17).fst.columns
      = [⟨"a", "BIGINT", true, false, false, false, false⟩] ∧
    (Unsigned (MakeColumn ⟨"t", []⟩ "a" "BIGINT" 17).fst "a").fst.columns
      = [⟨"a", "BIGINT", true, false, false, false, true⟩] :=
  ⟨(C9_unsigned_not_creation ⟨"t", []⟩ "a" "BIGINT" 17 (by decide)).1,
    (C9_unsigned_not_creation ⟨"t", []⟩ "a" "BIGINT" 17 (by decide)).2⟩

theorem runOps_cons_noop (t : table) (op : BuilderOp) (ops : List BuilderOp)
    (logs : List String) (h : applyOp t op = (t, logs)) :
    runOps t (op :: ops) = ((runOps t ops).fst, logs ++ (runOps t ops).snd) := by
  simp only [runOps, h]

/-- C8: a flag mutator (`NotNull`, `Nullable`, `AutoIncrement`, `Unique`,
`Unsigned`) applied to a name absent from the table at that point returns the
table completely unchanged together with only the `column X not found`
warning, and the `(string, error)` result of `BuildTable` is the same with or
without that call. -/
theorem C8_mutator_frame (op : BuilderOp) (nm : String)
    (hop : isFlagMutatorOp op nm) (n : String) (ops1 ops2 : List BuilderOp)
    (h : hasColumn (builderTable n ops1).fst nm = false) :
    applyOp (builderTable n ops1).fst op
      = ((builderTable n ops1).fst, ["column " ++ nm ++ " not found"]) ∧
    (BuildTable n (ops1 ++ op :: ops2)).map Prod.fst
      = (BuildTable n (ops1 ++ ops2)).map Prod.fst := by
  have happ : applyOp (builderTable n ops1).fst op
      = ((builderTable n ops1).fst, ["column " ++ nm ++ " not found"]) := by
    rcases hop with rfl | rfl | rfl | rfl | rfl <;>
      exact mutateFlag_not_found _ nm _ h
  refine ⟨happ, ?_⟩
  have hfst : (builderTable n (ops1 ++ op :: ops2)).fst
      = (builderTable n (ops1 ++ ops2)).fst := by
    show (runOps { name := n, columns := [] } (ops1 ++ op :: ops2)).fst
      = (runOps { name := n, columns := [] } (ops1 ++ ops2)).fst
    rw [runOps_append, runOps_append]
    show (runOps (builderTable n ops1).fst (op :: ops2)).fst
      = (runOps (builderTable n ops1).fst ops2).fst
    rw [runOps_cons_noop (builderTable n ops1).fst op ops2 _ happ]
  by_cases hv : validTableName n
  · by_cases hlen : (builderTable n (ops1 ++ ops2)).fst.columns = []
    · simp [BuildTable, hv, hfst, hlen]
    · have hFne : (injectSystem (builderTable n (ops1 ++ ops2)).fst).fst.columns ≠ [] :=
        columns_ne_nil_of_hasColumn _ "ID" (hasColumn_injectSystem_ID _)
      have hsql := toSQL_of_ne_nil _ hFne
      simp [BuildTable, hv, hfst, List.length_eq_zero, hlen, hsql]
  · have hv' : validTableName n = false := by simpa using hv
    simp [BuildTable, hv']

/-- Witness for C8: `Unique` on the undefined name `missing` is a pure
warning, and the build result is unchanged by the call. -/
theorem C8_mutator_frame_witness :
    applyOp (builderTable "test" [BuilderOp.integer "age"]).fst
        (BuilderOp.unique "missing")
      = ((builderTable "test" [BuilderOp.integer "age"]).fst,
          ["column missing not found"]) ∧
    (BuildTable "test"
        ([BuilderOp.integer "age"] ++ BuilderOp.unique "missing" :: [])).map Prod.fst
      = (BuildTable "test" ([BuilderOp.integer "age"] ++ [])).map Prod.fst :=
  C8_mutator_frame (BuilderOp.unique "missing") "missing" (Or.inr (Or.inr (Or.inr (Or.inl rfl))))
    "test" [BuilderOp.integer "age"] [] (by decide)

end cservice
